import Mathlib

/-!
Shallow embedding of `app/api/orders/[id]/route.ts` (cantera-erp): the GET and
PUT handlers for the order resource.  The database is modelled as explicit
state (lists of rows per table); the query executor's effect for each SQL
statement is a function on that state.  PUT's sequence of statements is run
with an optional injected failure index, modelling `executeQuery` throwing.
JavaScript's `Number.parseInt(s, 10)` and `Number(x)` coercions are modelled
faithfully enough to decide the claims that depend on them.
-/

namespace Cantera

/-- JavaScript whitespace accepted by `parseInt` / `Number` before the numeral. -/
def jsIsSpace (c : Char) : Bool :=
  c == ' ' || c == '\t' || c == '\n' || c == '\r' || c == '\x0b' || c == '\x0c'

def isDigitCh (c : Char) : Bool :=
  '0' ≤ c && c ≤ '9'

def digitVal (c : Char) : Nat := c.toNat - 48

def natOfDigits (cs : List Char) : Nat :=
  cs.foldl (fun a c => a * 10 + digitVal c) 0

/-- `Number.parseInt(s, 10)`: skip leading whitespace, optional sign, then the
longest leading run of decimal digits; `none` models `NaN` (no digit found). -/
def parseIntJS (s : String) : Option Int :=
  let cs := s.toList.dropWhile jsIsSpace
  match cs with
  | '-' :: rest =>
    let ds := rest.takeWhile isDigitCh
    if ds.isEmpty then none else some (-(natOfDigits ds : Int))
  | '+' :: rest =>
    let ds := rest.takeWhile isDigitCh
    if ds.isEmpty then none else some (natOfDigits ds : Int)
  | rest =>
    let ds := rest.takeWhile isDigitCh
    if ds.isEmpty then none else some (natOfDigits ds : Int)

/-- A JavaScript number: a rational value or `NaN`. -/
inductive JSNum where
  | val (q : Rat)
  | nan
deriving Repr, DecidableEq, Inhabited

/-- Digits-and-dot body of a decimal numeral (no sign), as `Number` accepts it:
`"12"`, `"12."`, `"12.5"`, `".5"`; anything else is `none` (`NaN`). -/
def splitFrac : List Char → (List Char × Option (List Char))
  | [] => ([], none)
  | '.' :: rest => ([], some rest)
  | c :: rest =>
    let (i, f) := splitFrac rest
    (c :: i, f)

def parseNumBody (cs : List Char) : Option Rat :=
  let (ip, fp) := splitFrac cs
  match fp with
  | none =>
    if ip.isEmpty || !ip.all isDigitCh then none
    else some (natOfDigits ip : Rat)
  | some f =>
    if ip.all isDigitCh && f.all isDigitCh && !(ip.isEmpty && f.isEmpty) then
      some ((natOfDigits ip : Rat) + (natOfDigits f : Rat) / ((10 : Rat) ^ f.length))
    else none

/-- `Number(s)` on a string: trim whitespace, empty gives `0`, optional sign,
then a decimal numeral; anything else is `NaN`. -/
def jsNumberOfString (s : String) : JSNum :=
  let cs := ((s.toList.dropWhile jsIsSpace).reverse.dropWhile jsIsSpace).reverse
  match cs with
  | [] => .val 0
  | '-' :: rest =>
    match parseNumBody rest with
    | some q => .val (-q)
    | none => .nan
  | '+' :: rest =>
    match parseNumBody rest with
    | some q => .val q
    | none => .nan
  | rest =>
    match parseNumBody rest with
    | some q => .val q
    | none => .nan

/-- A value delivered by the query layer for a decimal column: either already a
number or a decimal/text string. -/
inductive SqlNum where
  | num (q : Rat)
  | text (s : String)
deriving Repr, DecidableEq, Inhabited

/-- `Number(x)`: identity on numbers, string-to-number coercion on text. -/
def jsNumber : SqlNum → JSNum
  | .num q => .val q
  | .text s => jsNumberOfString s

/-! ### Database rows (tables touched by the two handlers) -/

/-- A row of `RIP.APP_PEDIDOS`. -/
structure OrderRow where
  id : Int
  order_number : String
  status : String
  created_at : Nat
  notes : String
  customer_id : Int
  destination_id : Option Int
  total : Rat
  invoice_series : Option String
  invoice_number : Option Int
  invoice_n : Option Int
  updated_at : Nat
deriving Repr, DecidableEq, Inhabited

/-- A row of `RIP.VW_APP_CLIENTES`. -/
structure ClientRow where
  id : Int
  name : String
  rfc : String
deriving Repr, DecidableEq, Inhabited

/-- A row of `RIP.APP_DESTINOS`. -/
structure DestRow where
  id : Int
  name : String
deriving Repr, DecidableEq, Inhabited

/-- A row of `dbo.FACTURASVENTA` (columns used by the join). -/
structure FacturaRow where
  numserie : String
  numfactura : Int
  n : Int
deriving Repr, DecidableEq, Inhabited

/-- A row of `RIP.VW_APP_PRODUCTOS`. -/
structure ProductRow where
  id : Int
  name : String
  unit : String
deriving Repr, DecidableEq, Inhabited

/-- A row of `RIP.APP_PEDIDOS_ITEMS`; `id` is the row's identity column,
assigned by the database on insert. -/
structure ItemRow where
  id : Int
  order_id : Int
  product_id : Int
  quantity : SqlNum
  price_per_unit : SqlNum
  unit : String
deriving Repr, DecidableEq, Inhabited

/-- A row of `RIP.APP_PEDIDOS_CAMIONES`. -/
structure TruckLink where
  pedido_id : Int
  camion_id : Int
deriving Repr, DecidableEq, Inhabited

/-- A row of `RIP.APP_PEDIDOS_CHOFERES`. -/
structure DriverLink where
  pedido_id : Int
  chofer_id : Int
deriving Repr, DecidableEq, Inhabited

/-- A row of `RIP.APP_CAMIONES`. -/
structure TruckRow where
  id : Int
  placa : String
  brand : String
  model : String
deriving Repr, DecidableEq, Inhabited

/-- A row of `RIP.APP_CHOFERES`. -/
structure DriverRow where
  id : Int
  name : String
  docId : String
deriving Repr, DecidableEq, Inhabited

/-- The database state visible to this endpoint.  `nextItemId` models the
identity counter of `RIP.APP_PEDIDOS_ITEMS`. -/
structure DB where
  orders : List OrderRow
  clients : List ClientRow
  destinations : List DestRow
  facturas : List FacturaRow
  products : List ProductRow
  items : List ItemRow
  truckLinks : List TruckLink
  driverLinks : List DriverLink
  trucks : List TruckRow
  drivers : List DriverRow
  nextItemId : Int
deriving Repr, DecidableEq, Inhabited

def emptyDB : DB :=
  ⟨[], [], [], [], [], [], [], [], [], [], 1⟩

/-! ### The validated PUT payload (shape of `orderUpdateSchema`'s output) -/

structure PayloadItem where
  product_id : Int
  quantity : Rat
  price_per_unit : Rat
  unit : String
deriving Repr, DecidableEq, Inhabited

structure Payload where
  customer_id : Int
  destination_id : Option Int
  total : Rat
  invoice_series : Option String
  invoice_number : Option Int
  invoice_n : Option Int
  items : List PayloadItem
  truck_ids : List Int
  driver_ids : List Int
deriving Repr, DecidableEq, Inhabited

/-- Outcome of `await request.json()` followed by `orderUpdateSchema.safeParse`:
the body is syntactically malformed JSON (`request.json()` throws), or parses
but fails validation (with the structured error list), or validates. -/
inductive BodyInput where
  | malformed
  | invalid (errors : List String)
  | valid (p : Payload)
deriving Repr, DecidableEq, Inhabited

/-! ### PUT: the statement sequence -/

/-- Effect of the `UPDATE RIP.APP_PEDIDOS SET ... WHERE id = @id` statement on
one header row. -/
def headerUpd (p : Payload) (now : Nat) (o : OrderRow) : OrderRow :=
  { o with
    customer_id := p.customer_id
    destination_id := p.destination_id
    total := p.total
    invoice_series := p.invoice_series
    invoice_number := p.invoice_number
    invoice_n := p.invoice_n
    updated_at := now }

def updateHeader (id : Int) (p : Payload) (now : Nat) (db : DB) : DB :=
  { db with orders := db.orders.map (fun o => if o.id == id then headerUpd p now o else o) }

/-- `DELETE FROM RIP.APP_PEDIDOS_ITEMS WHERE order_id = @id`. -/
def deleteItems (id : Int) (db : DB) : DB :=
  { db with items := db.items.filter (fun r => r.order_id != id) }

/-- The row written by `INSERT INTO RIP.APP_PEDIDOS_ITEMS ...` for one payload
item, with identity `rid`. -/
def mkItemRow (oid rid : Int) (it : PayloadItem) : ItemRow :=
  ⟨rid, oid, it.product_id, .num it.quantity, .num it.price_per_unit, it.unit⟩

def insertItem (id : Int) (it : PayloadItem) (db : DB) : DB :=
  { db with
    items := db.items ++ [mkItemRow id db.nextItemId it]
    nextItemId := db.nextItemId + 1 }

/-- `DELETE FROM RIP.APP_PEDIDOS_CAMIONES WHERE pedido_id = @id`. -/
def deleteTrucks (id : Int) (db : DB) : DB :=
  { db with truckLinks := db.truckLinks.filter (fun r => r.pedido_id != id) }

def insertTruck (id : Int) (truckId : Int) (db : DB) : DB :=
  { db with truckLinks := db.truckLinks ++ [⟨id, truckId⟩] }

/-- `DELETE FROM RIP.APP_PEDIDOS_CHOFERES WHERE pedido_id = @id`. -/
def deleteDrivers (id : Int) (db : DB) : DB :=
  { db with driverLinks := db.driverLinks.filter (fun r => r.pedido_id != id) }

def insertDriver (id : Int) (driverId : Int) (db : DB) : DB :=
  { db with driverLinks := db.driverLinks ++ [⟨id, driverId⟩] }

/-- The mutation statements the PUT handler issues, in source order: header
update; delete items then one insert per item; delete trucks then one insert
per truck id; delete drivers then one insert per driver id. -/
def stmtList (id : Int) (p : Payload) (now : Nat) : List (DB → DB) :=
  updateHeader id p now :: deleteItems id ::
    (p.items.map (fun it => insertItem id it) ++
      (deleteTrucks id :: p.truck_ids.map (fun t => insertTruck id t) ++
        (deleteDrivers id :: p.driver_ids.map (fun d => insertDriver id d))))

def applyAll (fs : List (DB → DB)) (db : DB) : DB :=
  fs.foldl (fun d f => f d) db

/-- The database after the first `k` statements of `fs`. -/
def applyN (fs : List (DB → DB)) (k : Nat) (db : DB) : DB :=
  applyAll (fs.take k) db

/-- Run the statements in order, counting `executeQuery` calls from `n`.
`failAt = some m` injects a throw on the `m`-th call (0-based): the call is
issued but applies no effect and the exception aborts the sequence.  Returns
the state reached and the number of calls issued. -/
def runStmts (failAt : Option Nat) : List (DB → DB) → DB → Nat → Except (DB × Nat) (DB × Nat)
  | [], db, n => .ok (db, n)
  | f :: fs, db, n =>
    if failAt = some n then .error (db, n + 1)
    else runStmts failAt fs (f db) (n + 1)

inductive PutResult where
  | invalidId (msg : String)
  | invalidBody (errors : List String)
  | internal (msg : String)
  | ok (message : String) (id : Int)
deriving Repr, DecidableEq, Inhabited

def PutResult.status : PutResult → Nat
  | .invalidId _ => 400
  | .invalidBody _ => 400
  | .internal _ => 500
  | .ok _ _ => 200

/-- What one PUT call produced: the HTTP-level result, the database afterwards,
the cache tags revalidated, and the number of `executeQuery` calls issued. -/
structure PutOutcome where
  result : PutResult
  db : DB
  tags : List String
  stmts : Nat
deriving Repr, DecidableEq, Inhabited

/-- The PUT handler.  Control flow as in the source: parse the id
(`Number.parseInt`, 400 on NaN); read and validate the body (a JSON parse
throw falls to the catch-all, a validation failure returns the error list with
status 400); run the statement sequence; on success revalidate the two cache
tags and return `{message, id}`; any throw is caught and mapped to a generic
500 with no revalidation. -/
def PUT (failAt : Option Nat) (now : Nat) (idStr : String) (body : BodyInput) (db : DB) : PutOutcome :=
  match parseIntJS idStr with
  | none => ⟨.invalidId "ID de pedido inválido", db, [], 0⟩
  | some id =>
    match body with
    | .malformed => ⟨.internal "Error interno del servidor", db, [], 0⟩
    | .invalid errs => ⟨.invalidBody errs, db, [], 0⟩
    | .valid p =>
      match runStmts failAt (stmtList id p now) db 0 with
      | .error (db', n) => ⟨.internal "Error interno del servidor", db', [], n⟩
      | .ok (db', n) =>
        ⟨.ok "Pedido actualizado correctamente" id, db', ["orders", "order-" ++ toString id], n⟩

/-! ### GET: queries and response assembly -/

/-- One row of the header query's result set: `p.*` columns, the joined client
columns, and the outer-joined destination and invoice columns (null when the
outer join found no match). -/
structure HeaderJoinRow where
  id : Int
  order_number : String
  status : String
  created_at : Nat
  notes : String
  customer_id : Int
  destination_id : Option Int
  invoice_series : Option String
  invoice_number : Option Int
  invoice_n : Option Int
  client_name : String
  rfc : String
  destino_name : Option String
  serie : Option String
  folio : Option Int
deriving Repr, DecidableEq, Inhabited

/-- Rows of `RIP.APP_DESTINOS` matching the order's outer-join condition
`d.id = p.destination_id` (SQL: no match when the column is NULL). -/
def destMatches (db : DB) (o : OrderRow) : List DestRow :=
  match o.destination_id with
  | some d => db.destinations.filter (fun r => r.id == d)
  | none => []

/-- Rows of `dbo.FACTURASVENTA` matching the composite outer-join condition on
series, number and n (no match when any of the three columns is NULL). -/
def facturaMatches (db : DB) (o : OrderRow) : List FacturaRow :=
  match o.invoice_series, o.invoice_number, o.invoice_n with
  | some s, some num, some nn =>
    db.facturas.filter (fun f => f.numserie == s && f.numfactura == num && f.n == nn)
  | _, _, _ => []

/-- SQL LEFT JOIN row multiplicity: an empty match set still yields one
(null-extended) row. -/
def leftRows {α : Type} : List α → List (Option α)
  | [] => [none]
  | x :: xs => (x :: xs).map some

def mkHeaderRow (o : OrderRow) (c : ClientRow) (d : Option DestRow) (f : Option FacturaRow) :
    HeaderJoinRow :=
  { id := o.id, order_number := o.order_number, status := o.status
    created_at := o.created_at, notes := o.notes, customer_id := o.customer_id
    destination_id := o.destination_id, invoice_series := o.invoice_series
    invoice_number := o.invoice_number, invoice_n := o.invoice_n
    client_name := c.name, rfc := c.rfc
    destino_name := d.map (fun r => r.name)
    serie := f.map (fun r => r.numserie), folio := f.map (fun r => r.numfactura) }

/-- Result set of the header query: order rows with the given id, inner-joined
with clients, outer-joined with destinations and invoices. -/
def headerQuery (db : DB) (id : Int) : List HeaderJoinRow :=
  (db.orders.filter (fun o => o.id == id)).flatMap fun o =>
    (db.clients.filter (fun c => c.id == o.customer_id)).flatMap fun c =>
      (leftRows (destMatches db o)).flatMap fun d =>
        (leftRows (facturaMatches db o)).map fun f => mkHeaderRow o c d f

/-- One row of the items query: item columns joined with the product columns. -/
structure ItemJoinRow where
  id : Int
  quantity : SqlNum
  price_per_unit : SqlNum
  unit : String
  product_id : Int
  product_name : String
  product_unit : String
deriving Repr, DecidableEq, Inhabited

def itemsQuery (db : DB) (id : Int) : List ItemJoinRow :=
  (db.items.filter (fun i => i.order_id == id)).flatMap fun i =>
    (db.products.filter (fun pr => pr.id == i.product_id)).map fun pr =>
      ⟨i.id, i.quantity, i.price_per_unit, i.unit, pr.id, pr.name, pr.unit⟩

def trucksQuery (db : DB) (id : Int) : List TruckRow :=
  (db.truckLinks.filter (fun pc => pc.pedido_id == id)).flatMap fun pc =>
    db.trucks.filter (fun t => t.id == pc.camion_id)

def driversQuery (db : DB) (id : Int) : List DriverRow :=
  (db.driverLinks.filter (fun pch => pch.pedido_id == id)).flatMap fun pch =>
    db.drivers.filter (fun c => c.id == pch.chofer_id)

/-! ### GET: response shape -/

structure ClientObj where
  id : Int
  name : String
  rfc : String
deriving Repr, DecidableEq, Inhabited

/-- The nested invoice object `{serie, folio, n}` built from the order's own
columns. -/
structure InvoiceObj where
  serie : String
  folio : Int
  n : Option Int
deriving Repr, DecidableEq, Inhabited

structure ProductObj where
  id : Int
  name : String
  unit : String
deriving Repr, DecidableEq, Inhabited

structure RespItem where
  id : Int
  quantity : JSNum
  price_per_unit : JSNum
  unit : String
  product : ProductObj
deriving Repr, DecidableEq, Inhabited

/-- `order.invoice_series && order.invoice_number ? {...} : null`: JavaScript
truthiness, so a NULL column, the empty string, and the number 0 all yield
`null`. -/
def mkInvoice : Option String → Option Int → Option Int → Option InvoiceObj
  | some s, some num, nn =>
    if s == "" || num == 0 then none else some ⟨s, num, nn⟩
  | _, _, _ => none

/-- The assembled aggregate: the spread of the header join row, plus the nested
client, invoice, items (with `Number(...)` coercion per element), trucks and
drivers. -/
structure PopulatedOrder where
  id : Int
  order_number : String
  status : String
  created_at : Nat
  notes : String
  customer_id : Int
  destination_id : Option Int
  invoice_series : Option String
  invoice_number : Option Int
  invoice_n : Option Int
  client_name : String
  rfc : String
  destino_name : Option String
  serie : Option String
  folio : Option Int
  client : ClientObj
  invoice : Option InvoiceObj
  items : List RespItem
  trucks : List TruckRow
  drivers : List DriverRow
deriving Repr, DecidableEq, Inhabited

def coerceItem (r : ItemJoinRow) : RespItem :=
  ⟨r.id, jsNumber r.quantity, jsNumber r.price_per_unit, r.unit,
    ⟨r.product_id, r.product_name, r.product_unit⟩⟩

def populate (o : HeaderJoinRow) (its : List ItemJoinRow) (tks : List TruckRow)
    (dvs : List DriverRow) : PopulatedOrder :=
  { id := o.id, order_number := o.order_number, status := o.status
    created_at := o.created_at, notes := o.notes, customer_id := o.customer_id
    destination_id := o.destination_id, invoice_series := o.invoice_series
    invoice_number := o.invoice_number, invoice_n := o.invoice_n
    client_name := o.client_name, rfc := o.rfc, destino_name := o.destino_name
    serie := o.serie, folio := o.folio
    client := ⟨o.customer_id, o.client_name, o.rfc⟩
    invoice := mkInvoice o.invoice_series o.invoice_number o.invoice_n
    items := its.map coerceItem
    trucks := tks, drivers := dvs }

inductive GetResult where
  | invalidId (msg : String)
  | notFound (msg : String)
  | internal (msg : String)
  | ok (order : PopulatedOrder)
deriving Repr, DecidableEq, Inhabited

def GetResult.status : GetResult → Nat
  | .invalidId _ => 400
  | .notFound _ => 404
  | .internal _ => 500
  | .ok _ => 200

/-- Which of the four queries a GET call issued, in order. -/
inductive QueryTag where
  | header
  | items
  | trucks
  | drivers
deriving Repr, DecidableEq, Inhabited

structure GetOutcome where
  result : GetResult
  queries : List QueryTag
deriving Repr, DecidableEq, Inhabited

def GetOutcome.okOrder? : GetOutcome → Option PopulatedOrder :=
  fun out =>
    match out.result with
    | .ok o => some o
    | _ => none

/-- The GET handler.  Control flow as in the source: parse the id (400 on NaN);
header query, 404 on an empty result set; then the items, trucks and drivers
queries; assemble the aggregate.  `failAt = some k` models the `k`-th
`executeQuery` call throwing, which the catch-all maps to a generic 500. -/
def GET (failAt : Option Nat) (idStr : String) (db : DB) : GetOutcome :=
  match parseIntJS idStr with
  | none => ⟨.invalidId "ID de pedido inválido", []⟩
  | some id =>
    if failAt = some 0 then ⟨.internal "Error interno del servidor", [.header]⟩
    else
      match headerQuery db id with
      | [] => ⟨.notFound "Pedido no encontrado", [.header]⟩
      | o :: _ =>
        if failAt = some 1 then ⟨.internal "Error interno del servidor", [.header, .items]⟩
        else if failAt = some 2 then
          ⟨.internal "Error interno del servidor", [.header, .items, .trucks]⟩
        else if failAt = some 3 then
          ⟨.internal "Error interno del servidor", [.header, .items, .trucks, .drivers]⟩
        else
          ⟨.ok (populate o (itemsQuery db id) (trucksQuery db id) (driversQuery db id)),
            [.header, .items, .trucks, .drivers]⟩

/-! ### Closed form of the successful write, and projections used in claims -/

/-- The item rows inserted for a payload's items, identities counted from
`start`. -/
def itemRowsFrom (oid : Int) (start : Int) : List PayloadItem → List ItemRow
  | [] => []
  | it :: rest => mkItemRow oid start it :: itemRowsFrom oid (start + 1) rest

/-- The content columns of a stored item row: everything the PUT payload
controls (identity column excluded). -/
def itemContent (r : ItemRow) : Int × SqlNum × SqlNum × String :=
  (r.product_id, r.quantity, r.price_per_unit, r.unit)

/-- A stored item row minus its database-assigned identity column. -/
def itemData (r : ItemRow) : Int × Int × SqlNum × SqlNum × String :=
  (r.order_id, r.product_id, r.quantity, r.price_per_unit, r.unit)

/-- The stored shape of one submitted payload item. -/
def payloadContent (it : PayloadItem) : Int × SqlNum × SqlNum × String :=
  (it.product_id, .num it.quantity, .num it.price_per_unit, it.unit)

/-- The database after every statement of a PUT succeeded: header row updated,
each child collection replaced by the submitted one. -/
def finalDB (id : Int) (p : Payload) (now : Nat) (db : DB) : DB :=
  { db with
    orders := db.orders.map (fun o => if o.id == id then headerUpd p now o else o)
    items := db.items.filter (fun r => r.order_id != id) ++ itemRowsFrom id db.nextItemId p.items
    nextItemId := db.nextItemId + p.items.length
    truckLinks := db.truckLinks.filter (fun r => r.pedido_id != id)
      ++ p.truck_ids.map (fun t => ⟨id, t⟩)
    driverLinks := db.driverLinks.filter (fun r => r.pedido_id != id)
      ++ p.driver_ids.map (fun d => ⟨id, d⟩) }

/-! ### Concrete inputs used to instantiate the general theorems -/

/-- The payload of §8.5 of the design document: one item, one truck, one
driver. -/
def wPayload : Payload :=
  { customer_id := 4, destination_id := none, total := 20
    invoice_series := none, invoice_number := none, invoice_n := none
    items := [⟨1, 2, 10, "kg"⟩], truck_ids := [5], driver_ids := [9] }

/-- A database holding order 3 with a pre-existing item, truck link and driver
link, so that replacement (rather than merging) is observable. -/
def wPriorDB : DB :=
  { emptyDB with
    orders := [{ id := 3, order_number := "P-3", status := "pending", created_at := 0
                 notes := "", customer_id := 4, destination_id := none, total := 1
                 invoice_series := none, invoice_number := none, invoice_n := none
                 updated_at := 0 }]
    clients := [⟨4, "ACME", "RFC-4"⟩]
    items := [⟨50, 3, 99, .num 1, .num 1, "t"⟩]
    truckLinks := [⟨3, 77⟩]
    driverLinks := [⟨3, 88⟩] }

/-- Order 1 whose invoice columns are non-null but JavaScript-falsy: the series
is the empty string. -/
def cxDB : DB :=
  { emptyDB with
    orders := [{ id := 1, order_number := "P-1", status := "pending", created_at := 0
                 notes := "", customer_id := 10, destination_id := none, total := 0
                 invoice_series := some "", invoice_number := some 5, invoice_n := some 1
                 updated_at := 0 }]
    clients := [⟨10, "ACME", "RFC-10"⟩] }

/-- Order 2 with truthy invoice columns. -/
def wInvoiceDB : DB :=
  { emptyDB with
    orders := [{ id := 2, order_number := "P-2", status := "pending", created_at := 0
                 notes := "", customer_id := 10, destination_id := none, total := 0
                 invoice_series := some "A", invoice_number := some 7, invoice_n := some 1
                 updated_at := 0 }]
    clients := [⟨10, "ACME", "RFC-10"⟩] }

def wInvoiceResp : PopulatedOrder :=
  ((GET none "2" wInvoiceDB).okOrder?).getD default

/-- Order 6 with one item whose decimal columns arrive from the query layer as
text. -/
def wItemsDB : DB :=
  { emptyDB with
    orders := [{ id := 6, order_number := "P-6", status := "pending", created_at := 0
                 notes := "", customer_id := 10, destination_id := none, total := 0
                 invoice_series := none, invoice_number := none, invoice_n := none
                 updated_at := 0 }]
    clients := [⟨10, "ACME", "RFC-10"⟩]
    products := [⟨1, "Sand", "kg"⟩]
    items := [⟨41, 6, 1, .text "2", .text "10", "kg"⟩] }

def wItemsResp : PopulatedOrder :=
  ((GET none "6" wItemsDB).okOrder?).getD default

/-! ### Lemmas: the statement interpreter -/

@[simp]
theorem applyAll_nil (db : DB) : applyAll [] db = db := rfl

@[simp]
theorem applyAll_cons (f : DB → DB) (fs : List (DB → DB)) (db : DB) :
    applyAll (f :: fs) db = applyAll fs (f db) := rfl

theorem applyAll_append (xs ys : List (DB → DB)) (db : DB) :
    applyAll (xs ++ ys) db = applyAll ys (applyAll xs db) := by
  induction xs generalizing db with
  | nil => simp
  | cons f fs ih => simp [ih]

/-- Running with no injected failure applies every statement. -/
theorem runStmts_none (fs : List (DB → DB)) (db : DB) (n : Nat) :
    runStmts none fs db n = .ok (applyAll fs db, n + fs.length) := by
  induction fs generalizing db n with
  | nil => simp [runStmts]
  | cons f fs ih =>
    simp only [runStmts, if_neg (by simp : ¬ (none : Option Nat) = some n), ih,
      applyAll_cons, List.length_cons]
    exact congrArg _ (by rw [Nat.add_assoc, Nat.add_comm 1])

/-- A failure injected on call `n + k` of the remaining `fs` aborts after
exactly the first `k` statements have been applied. -/
theorem runStmts_fail (fs : List (DB → DB)) (k n : Nat) (db : DB) (hk : k < fs.length) :
    runStmts (some (n + k)) fs db n = .error (applyN fs k db, n + k + 1) := by
  induction fs generalizing k n db with
  | nil => simp at hk
  | cons f fs ih =>
    cases k with
    | zero => simp [runStmts, applyN]
    | succ k =>
      have hne : ¬ (some (n + (k + 1)) = some n) := by
        simp only [Option.some.injEq]
        omega
      rw [runStmts, if_neg hne]
      have h2 : n + (k + 1) = (n + 1) + k := by omega
      rw [h2, ih k (n + 1) (f db) (by simpa using hk)]
      rfl

/-- A failure index beyond the whole sequence never fires. -/
theorem runStmts_some_ge (fs : List (DB → DB)) (m n : Nat) (db : DB)
    (h : n + fs.length ≤ m) :
    runStmts (some m) fs db n = .ok (applyAll fs db, n + fs.length) := by
  induction fs generalizing n db with
  | nil => simp [runStmts]
  | cons f fs ih =>
    have hne : ¬ (some m = some n) := by
      simp only [Option.some.injEq]
      simp only [List.length_cons] at h
      omega
    rw [runStmts, if_neg hne]
    rw [ih (n + 1) (f db) (by simp only [List.length_cons] at h; omega)]
    rw [List.length_cons, Nat.add_assoc, Nat.add_comm 1]
    rfl

/-- If the run finished, the injected failure index lies beyond every issued
call. -/
theorem runStmts_ok_bound (fs : List (DB → DB)) (m n : Nat) (db : DB) (r : DB × Nat)
    (hok : runStmts (some m) fs db n = .ok r) (hn : n ≤ m) : n + fs.length ≤ m := by
  induction fs generalizing n db with
  | nil => simpa using hn
  | cons f fs ih =>
    by_cases h : m = n
    · subst h
      rw [runStmts, if_pos rfl] at hok
      exact absurd hok (by simp)
    · rw [runStmts, if_neg (by simpa using h)] at hok
      have := ih (n + 1) (f db) hok (by omega)
      simpa [Nat.add_assoc, Nat.add_comm 1] using this

/-! ### Lemmas: effect of each insert loop -/

theorem applyAll_insertItems (oid : Int) (xs : List PayloadItem) (db : DB) :
    applyAll (xs.map (fun it => insertItem oid it)) db =
      { db with
        items := db.items ++ itemRowsFrom oid db.nextItemId xs
        nextItemId := db.nextItemId + xs.length } := by
  induction xs generalizing db with
  | nil => simp [itemRowsFrom]
  | cons it rest ih =>
    simp only [List.map_cons, applyAll_cons, ih, insertItem, itemRowsFrom, List.length_cons]
    congr 1
    · simp
    · push_cast
      ring

theorem applyAll_insertTrucks (oid : Int) (xs : List Int) (db : DB) :
    applyAll (xs.map (fun t => insertTruck oid t)) db =
      { db with truckLinks := db.truckLinks ++ xs.map (fun t => ⟨oid, t⟩) } := by
  induction xs generalizing db with
  | nil => simp
  | cons t rest ih =>
    simp only [List.map_cons, applyAll_cons, ih, insertTruck]
    congr 1
    simp

theorem applyAll_insertDrivers (oid : Int) (xs : List Int) (db : DB) :
    applyAll (xs.map (fun d => insertDriver oid d)) db =
      { db with driverLinks := db.driverLinks ++ xs.map (fun d => ⟨oid, d⟩) } := by
  induction xs generalizing db with
  | nil => simp
  | cons d rest ih =>
    simp only [List.map_cons, applyAll_cons, ih, insertDriver]
    congr 1
    simp

/-- The whole successful statement sequence, as one record update. -/
theorem applyAll_stmtList (id : Int) (p : Payload) (now : Nat) (db : DB) :
    applyAll (stmtList id p now) db = finalDB id p now db := by
  simp only [stmtList, applyAll_cons, applyAll_append, applyAll_insertItems,
    applyAll_insertTrucks, applyAll_insertDrivers, updateHeader, deleteItems,
    deleteTrucks, deleteDrivers, finalDB]

/-! ### Lemmas: the inserted rows, filtered and projected -/

theorem mem_itemRowsFrom (oid s : Int) (xs : List PayloadItem) (r : ItemRow)
    (h : r ∈ itemRowsFrom oid s xs) : r.order_id = oid := by
  induction xs generalizing s with
  | nil => simp [itemRowsFrom] at h
  | cons it rest ih =>
    simp only [itemRowsFrom, List.mem_cons] at h
    rcases h with h | h
    · subst h
      rfl
    · exact ih (s + 1) h

theorem itemRowsFrom_filter_eq (oid s : Int) (xs : List PayloadItem) :
    (itemRowsFrom oid s xs).filter (fun r => r.order_id == oid) = itemRowsFrom oid s xs :=
  List.filter_eq_self.mpr fun r hr => by simp [mem_itemRowsFrom oid s xs r hr]

theorem itemRowsFrom_filter_ne (oid s : Int) (xs : List PayloadItem) :
    (itemRowsFrom oid s xs).filter (fun r => r.order_id != oid) = [] :=
  List.filter_eq_nil_iff.mpr fun r hr => by simp [mem_itemRowsFrom oid s xs r hr]

theorem itemRowsFrom_content (oid s : Int) (xs : List PayloadItem) :
    (itemRowsFrom oid s xs).map itemContent = xs.map payloadContent := by
  induction xs generalizing s with
  | nil => simp [itemRowsFrom]
  | cons it rest ih =>
    simp only [itemRowsFrom, List.map_cons, ih]
    rfl

theorem itemRowsFrom_data (oid s : Int) (xs : List PayloadItem) :
    (itemRowsFrom oid s xs).map itemData =
      xs.map (fun it =>
        (oid, it.product_id, SqlNum.num it.quantity, SqlNum.num it.price_per_unit, it.unit)) := by
  induction xs generalizing s with
  | nil => simp [itemRowsFrom]
  | cons it rest ih =>
    simp only [itemRowsFrom, List.map_cons, ih]
    rfl

theorem truckRows_filter_eq (oid : Int) (xs : List Int) :
    ((xs.map fun t => (⟨oid, t⟩ : TruckLink)).filter fun r => r.pedido_id == oid) =
      xs.map fun t => (⟨oid, t⟩ : TruckLink) :=
  List.filter_eq_self.mpr fun r hr => by
    simp only [List.mem_map] at hr
    obtain ⟨t, _, rfl⟩ := hr
    simp

theorem truckRows_filter_ne (oid : Int) (xs : List Int) :
    ((xs.map fun t => (⟨oid, t⟩ : TruckLink)).filter fun r => r.pedido_id != oid) = [] :=
  List.filter_eq_nil_iff.mpr fun r hr => by
    simp only [List.mem_map] at hr
    obtain ⟨t, _, rfl⟩ := hr
    simp

theorem driverRows_filter_eq (oid : Int) (xs : List Int) :
    ((xs.map fun d => (⟨oid, d⟩ : DriverLink)).filter fun r => r.pedido_id == oid) =
      xs.map fun d => (⟨oid, d⟩ : DriverLink) :=
  List.filter_eq_self.mpr fun r hr => by
    simp only [List.mem_map] at hr
    obtain ⟨d, _, rfl⟩ := hr
    simp

theorem driverRows_filter_ne (oid : Int) (xs : List Int) :
    ((xs.map fun d => (⟨oid, d⟩ : DriverLink)).filter fun r => r.pedido_id != oid) = [] :=
  List.filter_eq_nil_iff.mpr fun r hr => by
    simp only [List.mem_map] at hr
    obtain ⟨d, _, rfl⟩ := hr
    simp

/-- Filtering the rows kept by a `DELETE ... WHERE key = id` for key `id`
leaves nothing. -/
theorem filter_eq_of_filter_ne {α : Type} (key : α → Int) (oid : Int) (l : List α) :
    ((l.filter fun r => key r != oid).filter fun r => key r == oid) = [] := by
  rw [List.filter_filter]
  exact List.filter_eq_nil_iff.mpr fun r _ => by
    by_cases h : key r = oid <;> simp [h]

/-- A `DELETE ... WHERE key = id` is idempotent. -/
theorem filter_ne_idem {α : Type} (key : α → Int) (oid : Int) (l : List α) :
    ((l.filter fun r => key r != oid).filter fun r => key r != oid) =
      l.filter fun r => key r != oid := by
  rw [List.filter_filter]
  simp

/-! ### Claim theorems -/

/-- C3 (amended): for every id string on which `Number.parseInt(·, 10)` yields
NaN, both GET and PUT return the 400 InvalidInput response and issue no
database call at all (no queries logged, no statements issued, state
unchanged).  The original claim's wider scope — every string that is not an
integer — fails, see the counterexample. -/
theorem id_parse_guard (failAtG failAtP : Option Nat) (now : Nat) (idStr : String)
    (body : BodyInput) (db : DB) (h : parseIntJS idStr = none) :
    GET failAtG idStr db = ⟨.invalidId "ID de pedido inválido", []⟩ ∧
    (GET failAtG idStr db).result.status = 400 ∧
    PUT failAtP now idStr body db = ⟨.invalidId "ID de pedido inválido", db, [], 0⟩ ∧
    (PUT failAtP now idStr body db).result.status = 400 := by
  simp [GET, PUT, h, GetResult.status, PutResult.status]

/-- C3 counterexample: `"12abc"` is not an integer, yet `parseInt` accepts it
as 12, so the GET handler queries the database (the header query is issued)
and answers 404, not 400. -/
theorem id_parse_guard_cx :
    parseIntJS "12abc" = some 12 ∧
    (GET none "12abc" emptyDB).queries = [QueryTag.header] ∧
    (GET none "12abc" emptyDB).result = .notFound "Pedido no encontrado" := by
  decide

/-- Witness for `id_parse_guard` at the concrete non-numeric id `"abc"`. -/
theorem id_parse_guard_witness :
    GET none "abc" emptyDB = ⟨.invalidId "ID de pedido inválido", []⟩ ∧
    (GET none "abc" emptyDB).result.status = 400 ∧
    PUT none 0 "abc" .malformed emptyDB
      = ⟨.invalidId "ID de pedido inválido", emptyDB, [], 0⟩ ∧
    (PUT none 0 "abc" .malformed emptyDB).result.status = 400 :=
  id_parse_guard none none 0 "abc" .malformed emptyDB (by decide)

/-- C4: a PUT whose body parses but fails schema validation returns the 400
response carrying the structured error list, and issues no database statement
of any kind: the state is returned unchanged and zero `executeQuery` calls
were made. -/
theorem put_validation_failure_no_writes (failAt : Option Nat) (now : Nat) (idStr : String)
    (id : Int) (errs : List String) (db : DB) (h : parseIntJS idStr = some id) :
    PUT failAt now idStr (.invalid errs) db = ⟨.invalidBody errs, db, [], 0⟩ ∧
    (PUT failAt now idStr (.invalid errs) db).result.status = 400 := by
  simp [PUT, h, PutResult.status]

/-- Witness for `put_validation_failure_no_writes` at id `"7"` with a missing
`customer_id` error. -/
theorem put_validation_failure_no_writes_witness :
    PUT none 0 "7" (.invalid ["customer_id: Required"]) emptyDB
      = ⟨.invalidBody ["customer_id: Required"], emptyDB, [], 0⟩ ∧
    (PUT none 0 "7" (.invalid ["customer_id: Required"]) emptyDB).result.status = 400 :=
  put_validation_failure_no_writes none 0 "7" 7 ["customer_id: Required"] emptyDB (by decide)

/-- C5: when the header lookup returns no row, GET answers 404 and issues no
item, truck or driver query: the query log is exactly the header query. -/
theorem get_not_found_short_circuit (failAt : Option Nat) (idStr : String) (db : DB) (id : Int)
    (h1 : parseIntJS idStr = some id) (h2 : headerQuery db id = []) (h3 : failAt ≠ some 0) :
    GET failAt idStr db = ⟨.notFound "Pedido no encontrado", [QueryTag.header]⟩ ∧
    (GET failAt idStr db).result.status = 404 := by
  simp [GET, h1, if_neg h3, h2, GetResult.status]

/-- Witness for `get_not_found_short_circuit` at id `"5"` on the empty
database. -/
theorem get_not_found_short_circuit_witness :
    GET none "5" emptyDB = ⟨.notFound "Pedido no encontrado", [QueryTag.header]⟩ ∧
    (GET none "5" emptyDB).result.status = 404 :=
  get_not_found_short_circuit none "5" emptyDB 5 (by decide) (by decide) (by decide)

/-- C9: a PUT whose body is not syntactically valid JSON (so `request.json()`
throws) is answered by the catch-all with the generic 500 Internal response,
not a 400, and no database statement is executed. -/
theorem put_malformed_body_internal (failAt : Option Nat) (now : Nat) (idStr : String)
    (id : Int) (db : DB) (h : parseIntJS idStr = some id) :
    PUT failAt now idStr .malformed db = ⟨.internal "Error interno del servidor", db, [], 0⟩ ∧
    (PUT failAt now idStr .malformed db).result.status = 500 := by
  simp [PUT, h, PutResult.status]

/-- Witness for `put_malformed_body_internal` at id `"4"`. -/
theorem put_malformed_body_internal_witness :
    PUT none 0 "4" .malformed emptyDB
      = ⟨.internal "Error interno del servidor", emptyDB, [], 0⟩ ∧
    (PUT none 0 "4" .malformed emptyDB).result.status = 500 :=
  put_malformed_body_internal none 0 "4" 4 emptyDB (by decide)

/-- C1: after a fully successful PUT with a valid payload, the stored child
rows for that order are exactly the submitted collections: the items for the
order project to the payload items (one row per submitted item, prior rows
gone), and the truck and driver link rows are exactly one per submitted id. -/
theorem put_replaces_children (now : Nat) (idStr : String) (id : Int) (p : Payload) (db : DB)
    (h : parseIntJS idStr = some id) :
    (PUT none now idStr (.valid p) db).result = .ok "Pedido actualizado correctamente" id ∧
    ((PUT none now idStr (.valid p) db).db.items.filter fun r => r.order_id == id).map itemContent
      = p.items.map payloadContent ∧
    ((PUT none now idStr (.valid p) db).db.truckLinks.filter fun r => r.pedido_id == id)
      = (p.truck_ids.map fun t => ⟨id, t⟩) ∧
    ((PUT none now idStr (.valid p) db).db.driverLinks.filter fun r => r.pedido_id == id)
      = (p.driver_ids.map fun d => ⟨id, d⟩) := by
  have hput : PUT none now idStr (.valid p) db
      = ⟨.ok "Pedido actualizado correctamente" id, finalDB id p now db,
         ["orders", "order-" ++ toString id], (stmtList id p now).length⟩ := by
    simp [PUT, h, runStmts_none, applyAll_stmtList]
  rw [hput]
  refine ⟨rfl, ?_, ?_, ?_⟩ <;>
    simp only [finalDB, List.filter_append, filter_eq_of_filter_ne, itemRowsFrom_filter_eq,
      truckRows_filter_eq, driverRows_filter_eq, List.nil_append, itemRowsFrom_content]

/-- Witness for `put_replaces_children`: order 3 with a pre-existing item,
truck and driver set, overwritten by the §8.5 payload. -/
theorem put_replaces_children_witness :
    (PUT none 0 "3" (.valid wPayload) wPriorDB).result
      = .ok "Pedido actualizado correctamente" 3 ∧
    ((PUT none 0 "3" (.valid wPayload) wPriorDB).db.items.filter
        fun r => r.order_id == 3).map itemContent
      = wPayload.items.map payloadContent ∧
    ((PUT none 0 "3" (.valid wPayload) wPriorDB).db.truckLinks.filter
        fun r => r.pedido_id == 3)
      = (wPayload.truck_ids.map fun t => ⟨3, t⟩) ∧
    ((PUT none 0 "3" (.valid wPayload) wPriorDB).db.driverLinks.filter
        fun r => r.pedido_id == 3)
      = (wPayload.driver_ids.map fun d => ⟨3, d⟩) :=
  put_replaces_children 0 "3" 3 wPayload wPriorDB (by decide)

/-- C6: running the same valid PUT twice leaves the three child collections in
the same final state as running it once: the link tables are equal outright,
and the item rows are equal in every column the payload controls (the
database-assigned identity column is regenerated by the second run). -/
theorem put_idempotent (now1 now2 : Nat) (idStr : String) (id : Int) (p : Payload) (db : DB)
    (h : parseIntJS idStr = some id) :
    (PUT none now2 idStr (.valid p) (PUT none now1 idStr (.valid p) db).db).db.items.map itemData
      = (PUT none now1 idStr (.valid p) db).db.items.map itemData ∧
    (PUT none now2 idStr (.valid p) (PUT none now1 idStr (.valid p) db).db).db.truckLinks
      = (PUT none now1 idStr (.valid p) db).db.truckLinks ∧
    (PUT none now2 idStr (.valid p) (PUT none now1 idStr (.valid p) db).db).db.driverLinks
      = (PUT none now1 idStr (.valid p) db).db.driverLinks := by
  have hdb : ∀ (now : Nat) (db0 : DB),
      (PUT none now idStr (.valid p) db0).db = finalDB id p now db0 := by
    intro now db0
    simp [PUT, h, runStmts_none, applyAll_stmtList]
  simp only [hdb]
  refine ⟨?_, ?_, ?_⟩ <;>
    simp only [finalDB, List.filter_append, filter_ne_idem, itemRowsFrom_filter_ne,
      truckRows_filter_ne, driverRows_filter_ne, List.append_nil, List.nil_append,
      List.map_append, itemRowsFrom_data]

/-- Witness for `put_idempotent` with the §8.5 payload on order 3. -/
theorem put_idempotent_witness :
    (PUT none 1 "3" (.valid wPayload) (PUT none 0 "3" (.valid wPayload) wPriorDB).db).db.items.map
        itemData
      = (PUT none 0 "3" (.valid wPayload) wPriorDB).db.items.map itemData ∧
    (PUT none 1 "3" (.valid wPayload) (PUT none 0 "3" (.valid wPayload) wPriorDB).db).db.truckLinks
      = (PUT none 0 "3" (.valid wPayload) wPriorDB).db.truckLinks ∧
    (PUT none 1 "3" (.valid wPayload) (PUT none 0 "3" (.valid wPayload) wPriorDB).db).db.driverLinks
      = (PUT none 0 "3" (.valid wPayload) wPriorDB).db.driverLinks :=
  put_idempotent 0 1 "3" 3 wPayload wPriorDB (by decide)

/-- C8: if some statement of the PUT sequence fails after the first mutation
has been issued, the handler answers with the generic 500 Internal response,
sends no cache invalidation, and the statements already applied remain
applied: the final state is exactly the prefix of the sequence before the
failing call — no compensating rollback. -/
theorem put_partial_failure_no_rollback (failK : Nat) (now : Nat) (idStr : String) (id : Int)
    (p : Payload) (db : DB) (h : parseIntJS idStr = some id) (_h1 : 1 ≤ failK)
    (h2 : failK < (stmtList id p now).length) :
    PUT (some failK) now idStr (.valid p) db
      = ⟨.internal "Error interno del servidor", applyN (stmtList id p now) failK db, [],
         failK + 1⟩ := by
  have hrun := runStmts_fail (stmtList id p now) failK 0 db h2
  simp only [Nat.zero_add] at hrun
  simp [PUT, h, hrun]

/-- Witness for `put_partial_failure_no_rollback`: the third call (the first
item insert) of the sequence for order 3 throws; the header update and the
item delete stay applied. -/
theorem put_partial_failure_no_rollback_witness :
    PUT (some 2) 0 "3" (.valid wPayload) wPriorDB
      = ⟨.internal "Error interno del servidor", applyN (stmtList 3 wPayload 0) 2 wPriorDB, [],
         3⟩ :=
  put_partial_failure_no_rollback 2 0 "3" 3 wPayload wPriorDB (by decide) (by decide)
    (by decide)

/-- C10: the two cache-invalidation tags and the `{message, id}` success
response are emitted only when the id parsed, the body validated, and no
statement of the sequence failed (the injected failure index, if any, lies
beyond the whole sequence); and then both signals appear together.
Contrapositively, any failure — also one after mutations were partially
applied — emits no invalidation. -/
theorem put_invalidation_gating (failAt : Option Nat) (now : Nat) (idStr : String)
    (body : BodyInput) (db : DB)
    (hsig : (PUT failAt now idStr body db).tags ≠ [] ∨
      ∃ m i, (PUT failAt now idStr body db).result = .ok m i) :
    ∃ id p, parseIntJS idStr = some id ∧ body = .valid p ∧
      (∀ k, failAt = some k → (stmtList id p now).length ≤ k) ∧
      (PUT failAt now idStr body db).tags = ["orders", "order-" ++ toString id] ∧
      (PUT failAt now idStr body db).result = .ok "Pedido actualizado correctamente" id := by
  cases hid : parseIntJS idStr with
  | none => simp [PUT, hid] at hsig
  | some id =>
    cases body with
    | malformed => simp [PUT, hid] at hsig
    | invalid errs => simp [PUT, hid] at hsig
    | valid p =>
      cases hrun : runStmts failAt (stmtList id p now) db 0 with
      | error r =>
        obtain ⟨db', n⟩ := r
        simp [PUT, hid, hrun] at hsig
      | ok r =>
        obtain ⟨db', n⟩ := r
        refine ⟨id, p, rfl, rfl, ?_, ?_, ?_⟩
        · intro k hk
          subst hk
          simpa using runStmts_ok_bound (stmtList id p now) k 0 db (db', n) hrun (Nat.zero_le k)
        · simp [PUT, hid, hrun]
        · simp [PUT, hid, hrun]

/-- Witness for `put_invalidation_gating`: the fully successful PUT on order 3
does emit both tags. -/
theorem put_invalidation_gating_witness :
    ∃ id p, parseIntJS "3" = some id ∧ BodyInput.valid wPayload = .valid p ∧
      (∀ k, (none : Option Nat) = some k → (stmtList id p 0).length ≤ k) ∧
      (PUT none 0 "3" (.valid wPayload) wPriorDB).tags = ["orders", "order-" ++ toString id] ∧
      (PUT none 0 "3" (.valid wPayload) wPriorDB).result
        = .ok "Pedido actualizado correctamente" id :=
  put_invalidation_gating none 0 "3" (.valid wPayload) wPriorDB (Or.inl (by decide))

/-- Inverting a 200 GET: the id parsed, the header query was non-empty, and
the response is the assembly of the first header row with the three child
query results. -/
theorem get_ok_inversion (failAt : Option Nat) (idStr : String) (db : DB) (o : PopulatedOrder)
    (h : (GET failAt idStr db).result = .ok o) :
    ∃ id hd rest, parseIntJS idStr = some id ∧ headerQuery db id = hd :: rest ∧
      o = populate hd (itemsQuery db id) (trucksQuery db id) (driversQuery db id) := by
  cases hid : parseIntJS idStr with
  | none => simp [GET, hid] at h
  | some id =>
    by_cases h0 : failAt = some 0
    · simp [GET, hid, h0] at h
    · cases hq : headerQuery db id with
      | nil => simp [GET, hid, h0, hq] at h
      | cons hd rest =>
        by_cases hf1 : failAt = some 1
        · simp [GET, hid, h0, hq, hf1] at h
        · by_cases hf2 : failAt = some 2
          · simp [GET, hid, h0, hq, hf1, hf2] at h
          · by_cases hf3 : failAt = some 3
            · simp [GET, hid, h0, hq, hf1, hf2, hf3] at h
            · simp only [GET, hid, if_neg h0, hq, if_neg hf1, if_neg hf2, if_neg hf3] at h
              exact ⟨id, hd, rest, rfl, hq, by
                cases h
                rfl⟩

/-- The invoice object built by the read path is non-null exactly when both
columns are JavaScript-truthy. -/
theorem mkInvoice_ne_none_iff (s : Option String) (num nn : Option Int) :
    mkInvoice s num nn ≠ none ↔
      (∃ a, s = some a ∧ a ≠ "") ∧ ∃ b, num = some b ∧ b ≠ 0 := by
  cases s with
  | none => simp [mkInvoice]
  | some a =>
    cases num with
    | none => simp [mkInvoice]
    | some b =>
      by_cases ha : a = "" <;> by_cases hb : b = 0 <;>
        simp [mkInvoice, ha, hb]

/-- C2 (amended): in a 200 GET response the nested invoice object is non-null
iff both invoice columns of the header are truthy: the series non-null and not
the empty string, and the number non-null and not zero — JavaScript
truthiness, not mere non-null-ness (see the counterexample); a null invoice is
still a normal 200 response. -/
theorem get_invoice_truthiness (failAt : Option Nat) (idStr : String) (db : DB)
    (o : PopulatedOrder) (h : (GET failAt idStr db).result = .ok o) :
    o.invoice ≠ none ↔
      (∃ s, o.invoice_series = some s ∧ s ≠ "") ∧
        ∃ num, o.invoice_number = some num ∧ num ≠ 0 := by
  obtain ⟨id, hd, rest, hid, hq, rfl⟩ := get_ok_inversion failAt idStr db o h
  exact mkInvoice_ne_none_iff hd.invoice_series hd.invoice_number hd.invoice_n

/-- C2 counterexample: order 1 has invoice_series non-null (the empty string)
and invoice_number non-null (5), yet the 200 response carries a null invoice —
presence is not derived solely from non-null-ness. -/
theorem get_invoice_truthiness_cx :
    ((GET none "1" cxDB).okOrder?.map fun o => (o.invoice_series, o.invoice_number, o.invoice))
      = some (some "", some 5, none) ∧
    (GET none "1" cxDB).result.status = 200 := by
  decide

/-- Witness for `get_invoice_truthiness`: order 2 with truthy invoice columns. -/
theorem get_invoice_truthiness_witness :
    wInvoiceResp.invoice ≠ none ↔
      (∃ s, wInvoiceResp.invoice_series = some s ∧ s ≠ "") ∧
        ∃ num, wInvoiceResp.invoice_number = some num ∧ num ≠ 0 :=
  get_invoice_truthiness none "2" wInvoiceDB wInvoiceResp (by decide)

/-- C7: in a 200 GET response the items array is exactly the
`Number(...)`-coerced image of the items query result: element for element,
quantity and price_per_unit are number-typed values obtained by coercion, even
when the query layer delivered them as decimal/text strings. -/
theorem get_items_coerced (failAt : Option Nat) (idStr : String) (db : DB)
    (o : PopulatedOrder) (h : (GET failAt idStr db).result = .ok o) :
    ∃ id, parseIntJS idStr = some id ∧
      o.items = (itemsQuery db id).map fun r =>
        { id := r.id, quantity := jsNumber r.quantity
          price_per_unit := jsNumber r.price_per_unit, unit := r.unit
          product := ⟨r.product_id, r.product_name, r.product_unit⟩ } := by
  obtain ⟨id, hd, rest, hid, hq, rfl⟩ := get_ok_inversion failAt idStr db o h
  exact ⟨id, hid, rfl⟩

/-- Witness for `get_items_coerced`: order 6 whose stored quantity and price
arrive as text. -/
theorem get_items_coerced_witness :
    ∃ id, parseIntJS "6" = some id ∧
      wItemsResp.items = (itemsQuery wItemsDB id).map fun r =>
        { id := r.id, quantity := jsNumber r.quantity
          price_per_unit := jsNumber r.price_per_unit, unit := r.unit
          product := ⟨r.product_id, r.product_name, r.product_unit⟩ } :=
  get_items_coerced none "6" wItemsDB wItemsResp (by decide)
